import Mathlib

/-!
Verification of the dbusext signal dispatch and coalescing engine
(subscription.go, connection.go) against its specification.

The embedding models:
  * D-Bus signals as records of name, origin path and a typed body;
  * Go channels with a capacity and a buffer, where a non-blocking send
    (select with default) appends when there is room and drops otherwise,
    and a nil channel never accepts a send;
  * the external bus collaborators (GetUnit, GetUnitPropertiesFromObjectPath,
    GetUnitFileState) as an environment of functions;
  * the dispatch goroutine body of subscription.go as a step function over
    an explicit state, returning none when a Go type assertion would panic;
  * the job registry (watchJob / jobComplete, whose bodies are not part of
    the sources at hand) modelled from the spec;
  * the mutex discipline of SetSubStateSubscriber versus sendSubStateUpdate
    as a small interleaving semantics with an explicit lock.
-/

namespace Dbusext

/-- One element of a D-Bus signal body: the dispatch code only ever
inspects string and boolean elements, other typed values are opaque. -/
inductive BodyElem where
  | str (s : String)
  | boolv (b : Bool)
  | other (n : Nat)
deriving DecidableEq

/-- A D-Bus signal: member name, origin object path, body. -/
structure Signal where
  name : String
  path : String
  body : List BodyElem
deriving DecidableEq

/-- The i-th body element as a string, none if absent or of another type
(a Go type assertion `body[i].(string)` panics there). -/
def getStr? (body : List BodyElem) (i : Nat) : Option String :=
  match body.get? i with
  | some (BodyElem.str s) => some s
  | _ => none

/-- The i-th body element as a boolean, none if absent or of another type. -/
def getBool? (body : List BodyElem) (i : Nat) : Option Bool :=
  match body.get? i with
  | some (BodyElem.boolv b) => some b
  | _ => none

def jobRemovedName : String := "org.freedesktop.systemd1.Manager.JobRemoved"

def propertiesChangedName : String := "org.freedesktop.DBus.Properties.PropertiesChanged"

def reloadingName : String := "org.freedesktop.systemd1.Manager.Reloading"

def unitFilesChangedName : String := "org.freedesktop.systemd1.Manager.UnitFilesChanged"

def unitInterfaceName : String := "org.freedesktop.systemd1.Unit"

/-- A Go channel that is not being drained: a fixed capacity and the
buffered messages. -/
structure Chan (α : Type) where
  cap : Nat
  buf : List α
deriving DecidableEq

/-- Non-blocking send on a channel (select with default): append when the
buffer has room, otherwise leave it unchanged; the flag reports success. -/
def trySend {α : Type} (c : Chan α) (x : α) : Chan α × Bool :=
  if c.buf.length < c.cap then ({ c with buf := c.buf ++ [x] }, true)
  else (c, false)

/-- Non-blocking send on an optional channel: a nil channel is never ready
in a select, so the default branch fires and the message is dropped. -/
def trySendOpt {α : Type} (c : Option (Chan α)) (x : α) : Option (Chan α) × Bool :=
  match c with
  | none => (none, false)
  | some ch =>
      let r := trySend ch x
      (some r.1, r.2)

/-- A channel that is absent, or full under the no-drain assumption. -/
def noRoom {α : Type} (c : Option (Chan α)) : Bool :=
  match c with
  | none => true
  | some ch => ! decide (ch.buf.length < ch.cap)

/-- The state update delivered to the subscriber (type SubStateUpdate). -/
structure SubStateUpdate where
  unitName : String
  subState : String
  fileState : String
deriving DecidableEq

/-- Errors sent on the error channel of the subscriber: either the error from a
failed property fetch, or the literal "update channel full" error. -/
inductive SubErr where
  | fetchErr (e : String)
  | channelFull
deriving DecidableEq

/-- The subscriber slot (struct subscriber in Conn): update, error and
reload channels, each possibly nil. -/
structure Subscriber where
  updateCh : Option (Chan SubStateUpdate)
  errCh : Option (Chan SubErr)
  reloadCh : Option (Chan Bool)
deriving DecidableEq

/-- A fetched unit property map, restricted to the two keys the code reads
(Id and SubState). -/
structure UnitProps where
  id : String
  subState : String
deriving DecidableEq

/-- The external bus collaborators used by the dispatch goroutine:
GetUnit (name to object path; none models a failed call, which leaves the
stored path at its zero value ""), GetUnitPropertiesFromObjectPath, and
GetUnitFileState. -/
structure Env where
  getUnit : String → Option String
  getUnitProps : String → Except String UnitProps
  getUnitFileState : String → String

/-- SetSubStateSubscriber: installs all three channels under the lock. -/
def setSubStateSubscriber (sub : Subscriber) (u : Option (Chan SubStateUpdate))
    (e : Option (Chan SubErr)) (r : Option (Chan Bool)) : Subscriber :=
  { sub with updateCh := u, errCh := e, reloadCh := r }

/-- RemoveSubStateSubscriber: clears updateCh and errCh under the lock;
the reload channel field is left as it is. -/
def removeSubStateSubscriber (sub : Subscriber) : Subscriber :=
  { sub with updateCh := none, errCh := none }

/-- sendSubStateReload: non-blocking send of true on the reload channel. -/
def sendSubStateReload (sub : Subscriber) : Subscriber :=
  { sub with reloadCh := (trySendOpt sub.reloadCh true).1 }

/-- sendSubStateUpdate: fetch the unit properties for the path; on failure
try to send the error on errCh and stop; on success build the update and
try to send it on updateCh; when that channel is absent or full, try to
send an "update channel full" error on errCh instead. Every send is
non-blocking. -/
def sendSubStateUpdate (env : Env) (sub : Subscriber) (path : String) : Subscriber :=
  match env.getUnitProps path with
  | Except.error e => { sub with errCh := (trySendOpt sub.errCh (SubErr.fetchErr e)).1 }
  | Except.ok props =>
      let fileState := env.getUnitFileState props.id
      let update : SubStateUpdate := ⟨props.id, props.subState, fileState⟩
      let res := trySendOpt sub.updateCh update
      if res.2 then { sub with updateCh := res.1 }
      else { sub with updateCh := res.1,
                      errCh := (trySendOpt sub.errCh SubErr.channelFull).1 }

/-- Modelled from the spec: the Job Registry state (the jobListener field
of Conn; the bodies of watchJob and jobComplete are not among the sources
at hand, only their caller and the registry struct are). Jobs maps a
correlation path to the identity of the waiting one-shot channel; chanBuf
records every message delivered to each channel, so "received exactly
once" is visible even after the registry entry is removed. -/
structure JobState where
  jobs : String → Option Nat
  nextChan : Nat
  chanBuf : Nat → List String

/-- Modelled from the spec: the result field of a completion notification,
a status string (the fourth body element of a JobRemoved signal). -/
def resultOf (sig : Signal) : String :=
  (getStr? sig.body 3).getD ""

/-- Modelled from the spec: watch(correlation_path) registers interest and
returns a fresh completion channel; registering a second job for the same
path is last-write-wins. -/
def watchJob (p : String) (s : JobState) : Nat × JobState :=
  (s.nextChan,
   { jobs := fun x => if x = p then some s.nextChan else s.jobs x,
     nextChan := s.nextChan + 1,
     chanBuf := s.chanBuf })

/-- Modelled from the spec: on a JobRemoved notification the registry looks
up the origin path of the notification; if a waiting job exists it delivers
the result of the notification to the channel of that job and removes the
entry,
otherwise the notification is discarded for this purpose. -/
def jobComplete (sig : Signal) (s : JobState) : JobState :=
  match s.jobs sig.path with
  | none => s
  | some cid =>
      { jobs := fun x => if x = sig.path then none else s.jobs x,
        nextChan := s.nextChan,
        chanBuf := fun i => if i = cid then s.chanBuf cid ++ [resultOf sig] else s.chanBuf i }

/-- The state owned by the dispatch goroutine: the two coalescing booleans
(local variables reloadState and unitFilesChanged), the job registry and
the subscriber slot. -/
structure DState where
  reloadState : Bool
  unitFilesChanged : Bool
  jobs : JobState
  sub : Subscriber

/-- Deliver a state update for the candidate path unless it is the zero
value "" (the `if unitPath == dbus.ObjectPath("")` continue guard). -/
def deliverCandidate (env : Env) (st : DState) (p : String) : DState :=
  if p = "" then st else { st with sub := sendSubStateUpdate env st.sub p }

/-- One iteration of the dispatch goroutine body on one signal: job
completion routing, the subscriber-nil check, then the switch deriving a
candidate path, reload bookkeeping, and delivery. Returns none when a Go
type assertion on a body element would panic. -/
def dispatchStep (env : Env) (st : DState) (sig : Signal) : Option DState :=
  let st := if sig.name = jobRemovedName then { st with jobs := jobComplete sig st.jobs } else st
  if st.sub.updateCh.isNone then some st
  else if sig.name = jobRemovedName then
    match getStr? sig.body 2 with
    | none => none
    | some unitName =>
        some (deliverCandidate env st ((env.getUnit unitName).getD ""))
  else if sig.name = propertiesChangedName then
    match getStr? sig.body 0 with
    | none => none
    | some iface =>
        some (deliverCandidate env st (if iface = unitInterfaceName then sig.path else ""))
  else if sig.name = reloadingName then
    match getBool? sig.body 0 with
    | none => none
    | some b =>
        let st := { st with reloadState := b }
        if st.unitFilesChanged && !b then
          some { st with sub := sendSubStateReload st.sub, unitFilesChanged := false }
        else
          some st
  else if sig.name = unitFilesChangedName then
    some { st with unitFilesChanged := true }
  else
    some st

/-- The dispatch loop over a finite prefix of the signal stream; the list
ending models the bounded queue being closed, upon which the loop returns. -/
def runDispatch (env : Env) : List Signal → DState → Option DState
  | [], st => some st
  | sig :: rest, st =>
      match dispatchStep env st sig with
      | none => none
      | some st2 => runDispatch env rest st2

/-- A UnitFilesChanged signal as emitted by the manager (empty body). -/
def sigUnitFilesChanged : Signal :=
  ⟨unitFilesChangedName, "/org/freedesktop/systemd1", []⟩

/-- A Reloading signal carrying its boolean in the first body element. -/
def sigReloading (b : Bool) : Signal :=
  ⟨reloadingName, "/org/freedesktop/systemd1", [BodyElem.boolv b]⟩


/-- A fixture environment in which every lookup fails: GetUnit errors (so
the stored path keeps its zero value) and the property fetch fails. -/
def envFail : Env :=
  ⟨fun _ => none, fun _ => Except.error "fetch failed", fun _ => ""⟩

/-- A fixture environment in which every lookup succeeds. -/
def envOk1 : Env :=
  ⟨fun _ => some "/org/freedesktop/systemd1/unit/a_2eservice",
   fun _ => Except.ok ⟨"a.service", "running"⟩,
   fun _ => "enabled"⟩

/-- The empty job registry, as built by NewConnection. -/
def jEmpty : JobState := ⟨fun _ => none, 0, fun _ => []⟩

/-- A subscriber with all three channels installed and room in each. -/
def subFull : Subscriber := ⟨some ⟨4, []⟩, some ⟨1, []⟩, some ⟨1, []⟩⟩

/-- Initial dispatch state with the subscriber above. -/
def stWithSub : DState := ⟨false, false, jEmpty, subFull⟩

/-- Initial dispatch state with no update or error channel configured. -/
def stNoSub : DState := ⟨false, false, jEmpty, ⟨none, none, some ⟨1, []⟩⟩⟩

/-- A subscriber whose update and error channels have zero capacity. -/
def subThin : Subscriber := ⟨some ⟨0, []⟩, some ⟨0, []⟩, none⟩

/-- Initial dispatch state with a zero-capacity update channel and a
one-slot error channel. -/
def stZero : DState := ⟨false, false, jEmpty, ⟨some ⟨0, []⟩, some ⟨1, []⟩, none⟩⟩

/-- A JobRemoved signal: body is id, job path, unit name, result. -/
def sigJob : Signal :=
  ⟨jobRemovedName, "/org/freedesktop/systemd1/job/1",
   [BodyElem.other 1, BodyElem.str "/org/freedesktop/systemd1/job/1",
    BodyElem.str "a.service", BodyElem.str "done"]⟩

/-- A PropertiesChanged signal on the unit interface. -/
def sigPropsOk : Signal :=
  ⟨propertiesChangedName, "/org/freedesktop/systemd1/unit/a_2eservice",
   [BodyElem.str unitInterfaceName]⟩

/-- A PropertiesChanged signal on a different interface. -/
def sigPropsOther : Signal :=
  ⟨propertiesChangedName, "/org/freedesktop/systemd1/unit/a_2eservice",
   [BodyElem.str "org.freedesktop.systemd1.Service"]⟩

/-- A notification that produces a state-update candidate and hits the
update channel: a PropertiesChanged signal on the unit interface with a
non-empty origin path. -/
def qualifying (sig : Signal) : Prop :=
  sig.name = propertiesChangedName ∧ getStr? sig.body 0 = some unitInterfaceName ∧
    sig.path ≠ ""

/-- The two threads of the subscriber-slot mutex discipline: the dispatch
goroutine delivering inside sendSubStateUpdate, and a caller installing a
new configuration through SetSubStateSubscriber. -/
inductive Tid where
  | deliverer
  | configurer
deriving DecidableEq, Fintype

/-- Interleaving state for the subscriber mutex. The channel fields are
abstracted to which configuration they hold (false = the old channel set,
true = the new one installed by SetSubStateSubscriber); rU and rE record
which update and error channel the delivery in sendSubStateUpdate read
under the lock and then used for its sends. -/
structure LState where
  lock : Option Tid
  updNew : Bool
  errNew : Bool
  rldNew : Bool
  dpc : Nat
  cpc : Nat
  rU : Bool
  rE : Bool
deriving DecidableEq

/-- Micro-steps of sendSubStateUpdate: acquire c.subscriber.Lock, read and
use updateCh, read and use errCh, release via defer Unlock. A blocked
acquisition leaves the state unchanged. -/
def dStep (s : LState) : LState :=
  match s.dpc with
  | 0 => if s.lock = none then { s with lock := some Tid.deliverer, dpc := 1 } else s
  | 1 => { s with rU := s.updNew, dpc := 2 }
  | 2 => { s with rE := s.errNew, dpc := 3 }
  | 3 => { s with lock := none, dpc := 4 }
  | _ => s

/-- Micro-steps of SetSubStateSubscriber: acquire the same lock, write
updateCh, errCh and reloadCh, release. -/
def cStep (s : LState) : LState :=
  match s.cpc with
  | 0 => if s.lock = none then { s with lock := some Tid.configurer, cpc := 1 } else s
  | 1 => { s with updNew := true, cpc := 2 }
  | 2 => { s with errNew := true, cpc := 3 }
  | 3 => { s with rldNew := true, cpc := 4 }
  | 4 => { s with lock := none, cpc := 5 }
  | _ => s

/-- One scheduled micro-step of the chosen thread. -/
def lockStep (t : Tid) (s : LState) : LState :=
  match t with
  | Tid.deliverer => dStep s
  | Tid.configurer => cStep s

/-- Run an arbitrary interleaving schedule. -/
def lockRun : List Tid → LState → LState
  | [], s => s
  | t :: ts, s => lockRun ts (lockStep t s)

/-- Initially the lock is free, both threads are before their critical
sections, and the old configuration is installed. -/
def lockInit : LState := ⟨none, false, false, false, 0, 0, false, false⟩

/-- Inductive invariant of the mutex discipline: program counters are
bounded, a thread inside its critical section holds the lock, the shared
fields reflect the configurer progress, and the recorded reads are
consistent. -/
def LInv (s : LState) : Prop :=
  s.dpc ≤ 4 ∧ s.cpc ≤ 5 ∧
  (1 ≤ s.dpc → s.dpc ≤ 3 → s.lock = some Tid.deliverer) ∧
  (1 ≤ s.cpc → s.cpc ≤ 4 → s.lock = some Tid.configurer) ∧
  s.updNew = decide (2 ≤ s.cpc) ∧
  s.errNew = decide (3 ≤ s.cpc) ∧
  (s.dpc = 2 → s.rU = s.updNew) ∧
  (3 ≤ s.dpc → s.rU = s.rE) ∧
  (3 ≤ s.dpc → s.cpc ≤ 2 → s.rU = false ∧ s.rE = false)

instance LInv.instDecidable (s : LState) : Decidable (LInv s) := by
  unfold LInv
  infer_instance

/-- Strengthened invariant for runs in which the delivery entered its
critical section while the configurer had not started: the delivery then
reads the old configuration. -/
def QInv (s : LState) : Prop :=
  LInv s ∧ 1 ≤ s.dpc ∧ (s.cpc = 0 ∨ (3 ≤ s.dpc ∧ s.rU = false ∧ s.rE = false))

instance QInv.instDecidable (s : LState) : Decidable (QInv s) := by
  unfold QInv
  infer_instance



/-! Helper lemmas about the dispatch step and channel operations. -/

lemma sendSubStateUpdate_reloadCh (env : Env) (sub : Subscriber) (p : String) :
    (sendSubStateUpdate env sub p).reloadCh = sub.reloadCh := by
  unfold sendSubStateUpdate
  cases env.getUnitProps p
  · rfl
  · dsimp only
    split <;> rfl

lemma deliverCandidate_sub_reloadCh (env : Env) (st : DState) (p : String) :
    (deliverCandidate env st p).sub.reloadCh = st.sub.reloadCh := by
  unfold deliverCandidate
  split
  · rfl
  · simp [sendSubStateUpdate_reloadCh]

lemma dispatchStep_noSub (env : Env) (st : DState) (sig : Signal)
    (h : st.sub.updateCh.isNone = true) :
    dispatchStep env st sig =
      some { st with
        jobs := if sig.name = jobRemovedName then jobComplete sig st.jobs else st.jobs } := by
  unfold dispatchStep
  split <;> simp_all

lemma dispatchStep_jobRemoved (env : Env) (st : DState) (sig : Signal) (nm : String)
    (h : sig.name = jobRemovedName) (hu : st.sub.updateCh.isNone = false)
    (hs : getStr? sig.body 2 = some nm) :
    dispatchStep env st sig =
      some (deliverCandidate env { st with jobs := jobComplete sig st.jobs }
        ((env.getUnit nm).getD "")) := by
  unfold dispatchStep
  simp [h, hu, hs]

lemma dispatchStep_jobRemoved_panic (env : Env) (st : DState) (sig : Signal)
    (h : sig.name = jobRemovedName) (hu : st.sub.updateCh.isNone = false)
    (hs : getStr? sig.body 2 = none) :
    dispatchStep env st sig = none := by
  unfold dispatchStep
  simp [h, hu, hs]

lemma dispatchStep_propertiesChanged (env : Env) (st : DState) (sig : Signal) (iface : String)
    (h : sig.name = propertiesChangedName) (hu : st.sub.updateCh.isNone = false)
    (hs : getStr? sig.body 0 = some iface) :
    dispatchStep env st sig =
      some (deliverCandidate env st (if iface = unitInterfaceName then sig.path else "")) := by
  unfold dispatchStep
  simp [h, hu, hs, propertiesChangedName, jobRemovedName]

lemma dispatchStep_propertiesChanged_panic (env : Env) (st : DState) (sig : Signal)
    (h : sig.name = propertiesChangedName) (hu : st.sub.updateCh.isNone = false)
    (hs : getStr? sig.body 0 = none) :
    dispatchStep env st sig = none := by
  unfold dispatchStep
  simp [h, hu, hs, propertiesChangedName, jobRemovedName]

lemma dispatchStep_reloading (env : Env) (st : DState) (sig : Signal) (b : Bool)
    (h : sig.name = reloadingName) (hu : st.sub.updateCh.isNone = false)
    (hb : getBool? sig.body 0 = some b) :
    dispatchStep env st sig =
      some (if st.unitFilesChanged && !b then
        { st with reloadState := b, unitFilesChanged := false, sub := sendSubStateReload st.sub }
      else { st with reloadState := b }) := by
  unfold dispatchStep
  simp [h, hu, hb, reloadingName, jobRemovedName, propertiesChangedName]
  split <;> rfl

lemma dispatchStep_reloading_panic (env : Env) (st : DState) (sig : Signal)
    (h : sig.name = reloadingName) (hu : st.sub.updateCh.isNone = false)
    (hb : getBool? sig.body 0 = none) :
    dispatchStep env st sig = none := by
  unfold dispatchStep
  simp [h, hu, hb, reloadingName, jobRemovedName, propertiesChangedName]

lemma dispatchStep_unitFilesChanged (env : Env) (st : DState) (sig : Signal)
    (h : sig.name = unitFilesChangedName) (hu : st.sub.updateCh.isNone = false) :
    dispatchStep env st sig = some { st with unitFilesChanged := true } := by
  unfold dispatchStep
  simp [h, hu, unitFilesChangedName, jobRemovedName, propertiesChangedName, reloadingName]

lemma dispatchStep_other (env : Env) (st : DState) (sig : Signal)
    (hJ : sig.name ≠ jobRemovedName) (hP : sig.name ≠ propertiesChangedName)
    (hR : sig.name ≠ reloadingName) (hU : sig.name ≠ unitFilesChangedName)
    (hu : st.sub.updateCh.isNone = false) :
    dispatchStep env st sig = some st := by
  unfold dispatchStep
  simp [hJ, hP, hR, hU, hu]

lemma trySendOpt_noRoom {α : Type} (c : Option (Chan α)) (x : α) (h : noRoom c = true) :
    trySendOpt c x = (c, false) := by
  cases c with
  | none => rfl
  | some ch =>
      simp [noRoom] at h
      have hnlt : ¬ ch.buf.length < ch.cap := by omega
      simp [trySendOpt, trySend, hnlt]

lemma trySend_cap {α : Type} (ch : Chan α) (x : α) : ((trySend ch x).1).cap = ch.cap := by
  unfold trySend
  split <;> rfl

lemma trySend_len {α : Type} (ch : Chan α) (x : α) (h : ch.buf.length ≤ ch.cap) :
    ((trySend ch x).1).buf.length ≤ ch.cap := by
  unfold trySend
  split
  · simp
    omega
  · simpa using h

lemma c7_aux (env : Env) (sigs : List Signal) :
    ∀ (st : DState) (u : Chan SubStateUpdate) (e : Chan SubErr) (c : Nat),
      (∀ sig ∈ sigs, qualifying sig) →
      (∀ q, ∃ pr, env.getUnitProps q = Except.ok pr) →
      st.sub.updateCh = some u → u.cap = 0 →
      st.sub.errCh = some e → e.cap = c → e.buf.length ≤ c →
      ∃ st' e', runDispatch env sigs st = some st' ∧
        st'.sub.updateCh = some u ∧ st'.sub.errCh = some e' ∧
        e'.cap = c ∧ e'.buf.length ≤ c := by
  induction sigs with
  | nil =>
      intro st u e c _ _ hu _ he hec helen
      exact ⟨st, e, rfl, hu, he, hec, helen⟩
  | cons sig rest ih =>
      intro st u e c hq hok hu hcap he hec helen
      obtain ⟨hn, hs, hp⟩ := hq sig (List.mem_cons_self sig rest)
      have hu' : st.sub.updateCh.isNone = false := by rw [hu]; rfl
      obtain ⟨pr, hpr⟩ := hok sig.path
      have hstep := dispatchStep_propertiesChanged env st sig unitInterfaceName hn hu' hs
      rw [if_pos rfl] at hstep
      have hfull : noRoom st.sub.updateCh = true := by
        rw [hu]
        simp [noRoom, hcap]
      have hts := trySendOpt_noRoom st.sub.updateCh
        ⟨pr.id, pr.subState, env.getUnitFileState pr.id⟩ hfull
      have hsend : sendSubStateUpdate env st.sub sig.path =
          { st.sub with errCh := (trySendOpt st.sub.errCh SubErr.channelFull).1 } := by
        simp [sendSubStateUpdate, hpr, hts]
      have hrun : runDispatch env (sig :: rest) st =
          runDispatch env rest { st with sub := sendSubStateUpdate env st.sub sig.path } := by
        show (match dispatchStep env st sig with
          | none => none
          | some st2 => runDispatch env rest st2) = _
        rw [hstep]
        simp [deliverCandidate, hp]
      rw [hrun, hsend]
      have hq2 : ∀ s ∈ rest, qualifying s := fun s hmem => hq s (List.mem_cons_of_mem sig hmem)
      apply ih _ u ((trySend e SubErr.channelFull).1) c hq2 hok
      · exact hu
      · exact hcap
      · show (trySendOpt st.sub.errCh SubErr.channelFull).1 = some (trySend e SubErr.channelFull).1
        rw [he]
        rfl
      · rw [trySend_cap]
        exact hec
      · have h1 : e.buf.length ≤ e.cap := by rw [hec]; exact helen
        have h2 := trySend_len e SubErr.channelFull h1
        rw [hec] at h2
        exact h2

lemma LInv_lockInit : LInv lockInit := by
  simp [LInv, lockInit]

lemma LInv_dStep : ∀ s : LState, LInv s → LInv (dStep s) := by
  rintro ⟨lk, un, en, rn, dpc, cpc, rU, rE⟩ h
  have h1 : dpc ≤ 4 := h.1
  have h2 : cpc ≤ 5 := h.2.1
  revert h
  revert lk un en rn rU rE
  interval_cases dpc <;> interval_cases cpc <;> decide

lemma LInv_cStep : ∀ s : LState, LInv s → LInv (cStep s) := by
  rintro ⟨lk, un, en, rn, dpc, cpc, rU, rE⟩ h
  have h1 : dpc ≤ 4 := h.1
  have h2 : cpc ≤ 5 := h.2.1
  revert h
  revert lk un en rn rU rE
  interval_cases dpc <;> interval_cases cpc <;> decide

lemma LInv_lockStep (t : Tid) (s : LState) (h : LInv s) : LInv (lockStep t s) := by
  cases t
  · exact LInv_dStep s h
  · exact LInv_cStep s h

lemma LInv_lockRun (sched : List Tid) : ∀ s : LState, LInv s → LInv (lockRun sched s) := by
  induction sched with
  | nil => intro s h; exact h
  | cons t ts ih => intro s h; exact ih (lockStep t s) (LInv_lockStep t s h)

lemma QInv_lockStep (t : Tid) : ∀ s : LState, QInv s → QInv (lockStep t s) := by
  rintro ⟨lk, un, en, rn, dpc, cpc, rU, rE⟩ h
  have h1 : dpc ≤ 4 := h.1.1
  have h2 : cpc ≤ 5 := h.1.2.1
  revert h
  revert lk un en rn rU rE
  cases t
  · show ∀ _ _ _ _ _ _, QInv _ → QInv (dStep _)
    interval_cases dpc <;> interval_cases cpc <;> decide
  · show ∀ _ _ _ _ _ _, QInv _ → QInv (cStep _)
    interval_cases dpc <;> interval_cases cpc <;> decide

lemma QInv_lockRun (sched : List Tid) : ∀ s : LState, QInv s → QInv (lockRun sched s) := by
  induction sched with
  | nil => intro s h; exact h
  | cons t ts ih => intro s h; exact ih (lockStep t s) (QInv_lockStep t s h)

lemma lockRun_append (l1 l2 : List Tid) (s : LState) :
    lockRun (l1 ++ l2) s = lockRun l2 (lockRun l1 s) := by
  induction l1 generalizing s with
  | nil => rfl
  | cons t ts ih => simp [lockRun, ih]



/-! Claim theorems. -/

/-- C1: starting from the initial dispatch state with a subscriber
configured (update channel present, reload channel with room), processing
[UnitFilesChanged, Reloading(true), Reloading(false)] emits exactly one
reload event on the reload channel; [Reloading(true), Reloading(false)]
with no preceding UnitFilesChanged emits zero; and [UnitFilesChanged,
Reloading(true), Reloading(true), Reloading(false)] still emits exactly
one. -/
theorem c1_reload_coalescing (env : Env) (j : JobState) (u : Chan SubStateUpdate)
    (e : Option (Chan SubErr)) (r : Chan Bool) (hr : r.buf.length < r.cap) :
    ((runDispatch env [sigUnitFilesChanged, sigReloading true, sigReloading false]
        ⟨false, false, j, ⟨some u, e, some r⟩⟩).map (fun s => s.sub.reloadCh)
      = some (some ⟨r.cap, r.buf ++ [true]⟩))
    ∧ ((runDispatch env [sigReloading true, sigReloading false]
        ⟨false, false, j, ⟨some u, e, some r⟩⟩).map (fun s => s.sub.reloadCh)
      = some (some r))
    ∧ ((runDispatch env
          [sigUnitFilesChanged, sigReloading true, sigReloading true, sigReloading false]
        ⟨false, false, j, ⟨some u, e, some r⟩⟩).map (fun s => s.sub.reloadCh)
      = some (some ⟨r.cap, r.buf ++ [true]⟩)) := by
  refine ⟨?_, ?_, ?_⟩ <;>
    simp [runDispatch, dispatchStep, sigUnitFilesChanged, sigReloading,
      jobRemovedName, unitFilesChangedName, reloadingName, propertiesChangedName,
      getBool?, sendSubStateReload, trySendOpt, trySend, hr]

/-- Witness for C1 at a concrete environment, registry and channels. -/
theorem c1_reload_coalescing_witness :
    (⟨1, []⟩ : Chan Bool).buf.length < (⟨1, []⟩ : Chan Bool).cap
    ∧ ((runDispatch envFail [sigUnitFilesChanged, sigReloading true, sigReloading false]
        ⟨false, false, jEmpty, ⟨some ⟨4, []⟩, some ⟨1, []⟩, some ⟨1, []⟩⟩⟩).map
      (fun s => s.sub.reloadCh) = some (some ⟨1, [true]⟩))
    ∧ ((runDispatch envFail [sigReloading true, sigReloading false]
        ⟨false, false, jEmpty, ⟨some ⟨4, []⟩, some ⟨1, []⟩, some ⟨1, []⟩⟩⟩).map
      (fun s => s.sub.reloadCh) = some (some ⟨1, []⟩))
    ∧ ((runDispatch envFail
          [sigUnitFilesChanged, sigReloading true, sigReloading true, sigReloading false]
        ⟨false, false, jEmpty, ⟨some ⟨4, []⟩, some ⟨1, []⟩, some ⟨1, []⟩⟩⟩).map
      (fun s => s.sub.reloadCh) = some (some ⟨1, [true]⟩)) :=
  ⟨by decide, c1_reload_coalescing envFail jEmpty ⟨4, []⟩ (some ⟨1, []⟩) ⟨1, []⟩ (by decide)⟩

/-- C2 counterexample: with a subscriber configured, the run
[UnitFilesChanged, Reloading(false)] emits a reload event although the
reloading flag never was true (it is false initially and still false after
the first signal), so the emission is not tied to a true-to-false
transition of the reloading flag. -/
theorem c2_true_false_transition_counterexample :
    stWithSub.reloadState = false
    ∧ (runDispatch envFail [sigUnitFilesChanged] stWithSub).map (fun s => s.reloadState)
        = some false
    ∧ (runDispatch envFail [sigUnitFilesChanged, sigReloading false] stWithSub).map
        (fun s => s.sub.reloadCh) = some (some ⟨1, [true]⟩) :=
  ⟨rfl, rfl, rfl⟩

/-- C2 amended: a synthetic reload event is emitted exactly upon processing
a Reloading notification carrying false while unit_files_changed is true
(and an update channel is configured), regardless of the previous value of
the reloading flag; each emission resets unit_files_changed to false, and
in every other case the reload channel is left untouched. -/
theorem c2_reload_emission_amended (env : Env) (st : DState) (sig : Signal) (st2 : DState)
    (hstep : dispatchStep env st sig = some st2) :
    ((sig.name = reloadingName ∧ st.sub.updateCh.isNone = false ∧
        st.unitFilesChanged = true ∧ getBool? sig.body 0 = some false) →
      st2.sub = sendSubStateReload st.sub ∧ st2.unitFilesChanged = false)
    ∧ (¬ (sig.name = reloadingName ∧ st.sub.updateCh.isNone = false ∧
        st.unitFilesChanged = true ∧ getBool? sig.body 0 = some false) →
      st2.sub.reloadCh = st.sub.reloadCh) := by
  by_cases hu : st.sub.updateCh.isNone = true
  · rw [dispatchStep_noSub env st sig hu] at hstep
    obtain rfl : _ = st2 := Option.some.inj hstep
    constructor
    · rintro ⟨-, h2, -, -⟩
      rw [hu] at h2
      cases h2
    · intro
      rfl
  · have hu2 : st.sub.updateCh.isNone = false := by
      cases h : st.sub.updateCh.isNone
      · rfl
      · exact absurd h hu
    by_cases hR : sig.name = reloadingName
    · cases hb : getBool? sig.body 0 with
      | none =>
          rw [dispatchStep_reloading_panic env st sig hR hu2 hb] at hstep
          cases hstep
      | some b =>
          rw [dispatchStep_reloading env st sig b hR hu2 hb] at hstep
          by_cases hc : st.unitFilesChanged && !b
          · rw [if_pos hc] at hstep
            obtain rfl : _ = st2 := Option.some.inj hstep
            have hb2 : st.unitFilesChanged = true ∧ b = false := by
              constructor
              · cases hfc : st.unitFilesChanged
                · rw [hfc] at hc; cases hc
                · rfl
              · cases hbc : b
                · rfl
                · rw [hbc] at hc; simp at hc
            constructor
            · intro
              exact ⟨rfl, rfl⟩
            · intro hneg
              exfalso
              apply hneg
              refine ⟨hR, hu2, hb2.1, ?_⟩
              rw [hb2.2]
          · rw [if_neg hc] at hstep
            obtain rfl : _ = st2 := Option.some.inj hstep
            constructor
            · rintro ⟨-, -, hfc, hbf⟩
              injection hbf with hb0
              subst hb0
              rw [hfc] at hc
              simp at hc
            · intro
              rfl
    · refine ⟨fun h => absurd h.1 hR, fun _ => ?_⟩
      by_cases hJ : sig.name = jobRemovedName
      · cases hs : getStr? sig.body 2 with
        | none =>
            rw [dispatchStep_jobRemoved_panic env st sig hJ hu2 hs] at hstep
            cases hstep
        | some nm =>
            rw [dispatchStep_jobRemoved env st sig nm hJ hu2 hs] at hstep
            obtain rfl : _ = st2 := Option.some.inj hstep
            rw [deliverCandidate_sub_reloadCh]
      · by_cases hP : sig.name = propertiesChangedName
        · cases hs : getStr? sig.body 0 with
          | none =>
              rw [dispatchStep_propertiesChanged_panic env st sig hP hu2 hs] at hstep
              cases hstep
          | some iface =>
              rw [dispatchStep_propertiesChanged env st sig iface hP hu2 hs] at hstep
              obtain rfl : _ = st2 := Option.some.inj hstep
              rw [deliverCandidate_sub_reloadCh]
        · by_cases hU : sig.name = unitFilesChangedName
          · rw [dispatchStep_unitFilesChanged env st sig hU hu2] at hstep
            obtain rfl : _ = st2 := Option.some.inj hstep
            rfl
          · rw [dispatchStep_other env st sig hJ hP hR hU hu2] at hstep
            obtain rfl : _ = st2 := Option.some.inj hstep
            rfl

/-- Witness for the amended C2 at a concrete emitting step. -/
theorem c2_reload_emission_amended_witness :
    dispatchStep envFail ⟨false, true, jEmpty, subFull⟩ (sigReloading false)
      = some ⟨false, false, jEmpty, ⟨some ⟨4, []⟩, some ⟨1, []⟩, some ⟨1, [true]⟩⟩⟩
    ∧ (⟨false, false, jEmpty, ⟨some ⟨4, []⟩, some ⟨1, []⟩, some ⟨1, [true]⟩⟩⟩ : DState).sub
        = sendSubStateReload (⟨false, true, jEmpty, subFull⟩ : DState).sub
    ∧ (⟨false, false, jEmpty,
        ⟨some ⟨4, []⟩, some ⟨1, []⟩, some ⟨1, [true]⟩⟩⟩ : DState).unitFilesChanged = false := by
  have hstep : dispatchStep envFail ⟨false, true, jEmpty, subFull⟩ (sigReloading false)
      = some ⟨false, false, jEmpty, ⟨some ⟨4, []⟩, some ⟨1, []⟩, some ⟨1, [true]⟩⟩⟩ := rfl
  have h := (c2_reload_emission_amended envFail _ _ _ hstep).1 ⟨rfl, rfl, rfl, rfl⟩
  exact ⟨hstep, h.1, h.2⟩

/-- C3: registering a watch on a correlation path and then delivering a
completion notification whose origin path is that path makes the returned
channel receive the result of the notification exactly once, and removes
the path from the registry. -/
theorem c3_job_registry_exactly_once (p : String) (s : JobState) (sig : Signal)
    (hfresh : s.chanBuf s.nextChan = []) (hpath : sig.path = p) :
    (jobComplete sig (watchJob p s).2).chanBuf (watchJob p s).1 = [resultOf sig]
    ∧ (jobComplete sig (watchJob p s).2).jobs p = none := by
  simp [watchJob, jobComplete, hpath, hfresh]

/-- Witness for C3 on the empty registry and a concrete JobRemoved
notification. -/
theorem c3_job_registry_exactly_once_witness :
    jEmpty.chanBuf jEmpty.nextChan = []
    ∧ sigJob.path = "/org/freedesktop/systemd1/job/1"
    ∧ (jobComplete sigJob (watchJob "/org/freedesktop/systemd1/job/1" jEmpty).2).chanBuf
        (watchJob "/org/freedesktop/systemd1/job/1" jEmpty).1 = ["done"]
    ∧ (jobComplete sigJob (watchJob "/org/freedesktop/systemd1/job/1" jEmpty).2).jobs
        "/org/freedesktop/systemd1/job/1" = none :=
  ⟨rfl, rfl,
    (c3_job_registry_exactly_once "/org/freedesktop/systemd1/job/1" jEmpty sigJob rfl rfl).1,
    (c3_job_registry_exactly_once "/org/freedesktop/systemd1/job/1" jEmpty sigJob rfl rfl).2⟩

/-- C4: in sendSubStateUpdate, a failed fetch attempts a non-blocking send
of the error on the error channel and never touches the update channel; a
successful fetch with an absent-or-full update channel attempts a
non-blocking send of the channel-full error on the error channel; and when
the error channel is also absent or full the subscriber is returned
entirely unchanged (the event is dropped). Every branch is a total
function of its inputs: nothing blocks or queues. -/
theorem c4_deliver_update_best_effort (env : Env) (sub : Subscriber) (p : String) :
    (∀ e, env.getUnitProps p = Except.error e →
      sendSubStateUpdate env sub p =
        { sub with errCh := (trySendOpt sub.errCh (SubErr.fetchErr e)).1 })
    ∧ (∀ pr, env.getUnitProps p = Except.ok pr → noRoom sub.updateCh = true →
        (sendSubStateUpdate env sub p).errCh = (trySendOpt sub.errCh SubErr.channelFull).1 ∧
        (sendSubStateUpdate env sub p).updateCh = sub.updateCh ∧
        (sendSubStateUpdate env sub p).reloadCh = sub.reloadCh)
    ∧ (∀ pr, env.getUnitProps p = Except.ok pr → noRoom sub.updateCh = true →
        noRoom sub.errCh = true → sendSubStateUpdate env sub p = sub) := by
  refine ⟨?_, ?_, ?_⟩
  · intro e he
    simp [sendSubStateUpdate, he]
  · intro pr hok hfull
    have hts := trySendOpt_noRoom sub.updateCh
      ⟨pr.id, pr.subState, env.getUnitFileState pr.id⟩ hfull
    simp [sendSubStateUpdate, hok, hts]
  · intro pr hok hfull herr
    have hts := trySendOpt_noRoom sub.updateCh
      ⟨pr.id, pr.subState, env.getUnitFileState pr.id⟩ hfull
    have hte := trySendOpt_noRoom sub.errCh SubErr.channelFull herr
    simp [sendSubStateUpdate, hok, hts, hte]

/-- Witness for C4: the failed-fetch branch on a roomy subscriber, and the
full-everything branch on a zero-capacity subscriber. -/
theorem c4_deliver_update_best_effort_witness :
    envFail.getUnitProps "/u" = Except.error "fetch failed"
    ∧ sendSubStateUpdate envFail subFull "/u"
        = { subFull with errCh := (trySendOpt subFull.errCh (SubErr.fetchErr "fetch failed")).1 }
    ∧ envOk1.getUnitProps "/u" = Except.ok ⟨"a.service", "running"⟩
    ∧ noRoom subThin.updateCh = true
    ∧ noRoom subThin.errCh = true
    ∧ sendSubStateUpdate envOk1 subThin "/u" = subThin :=
  ⟨rfl,
    (c4_deliver_update_best_effort envFail subFull "/u").1 "fetch failed" rfl,
    rfl, rfl, rfl,
    (c4_deliver_update_best_effort envOk1 subThin "/u").2.2 ⟨"a.service", "running"⟩ rfl rfl rfl⟩

/-- C5 counterexample: with no subscriber update channel configured, the
dispatch loop skips the switch entirely, so a UnitFilesChanged notification
leaves unit_files_changed false and a Reloading(true) notification leaves
the reloading flag false — the reload bookkeeping is not performed without
a subscriber. -/
theorem c5_bookkeeping_skipped_counterexample :
    stNoSub.sub.updateCh = none
    ∧ (runDispatch envFail [sigUnitFilesChanged] stNoSub).map (fun s => s.unitFilesChanged)
        = some false
    ∧ (runDispatch envFail [sigReloading true] stNoSub).map (fun s => s.reloadState)
        = some false :=
  ⟨rfl, rfl, rfl⟩

/-- C5 amended: the reload bookkeeping of routing step 2 is performed only
when a subscriber update channel is configured. With updateCh nil the loop
continues after job handling, leaving both flags and the subscriber
unchanged; with an update channel configured, UnitFilesChanged sets
unit_files_changed and Reloading updates the reloading flag from its first
body element. -/
theorem c5_bookkeeping_amended (env : Env) (st : DState) (sig : Signal) :
    (st.sub.updateCh.isNone = true →
      ∃ st2, dispatchStep env st sig = some st2 ∧ st2.sub = st.sub ∧
        st2.unitFilesChanged = st.unitFilesChanged ∧ st2.reloadState = st.reloadState)
    ∧ (st.sub.updateCh.isNone = false → sig.name = unitFilesChangedName →
        dispatchStep env st sig = some { st with unitFilesChanged := true })
    ∧ (∀ b, st.sub.updateCh.isNone = false → sig.name = reloadingName →
        getBool? sig.body 0 = some b →
        ∃ st2, dispatchStep env st sig = some st2 ∧ st2.reloadState = b) := by
  refine ⟨?_, ?_, ?_⟩
  · intro hu
    exact ⟨_, dispatchStep_noSub env st sig hu, rfl, rfl, rfl⟩
  · intro hu hn
    exact dispatchStep_unitFilesChanged env st sig hn hu
  · intro b hu hn hb
    refine ⟨_, dispatchStep_reloading env st sig b hn hu hb, ?_⟩
    split <;> rfl

/-- Witness for the amended C5 at concrete states and signals. -/
theorem c5_bookkeeping_amended_witness :
    stNoSub.sub.updateCh.isNone = true
    ∧ (∃ st2, dispatchStep envFail stNoSub sigUnitFilesChanged = some st2 ∧
        st2.sub = stNoSub.sub ∧ st2.unitFilesChanged = stNoSub.unitFilesChanged ∧
        st2.reloadState = stNoSub.reloadState)
    ∧ stWithSub.sub.updateCh.isNone = false
    ∧ dispatchStep envFail stWithSub sigUnitFilesChanged
        = some { stWithSub with unitFilesChanged := true }
    ∧ (∃ st2, dispatchStep envFail stWithSub (sigReloading true) = some st2 ∧
        st2.reloadState = true) :=
  ⟨rfl,
    (c5_bookkeeping_amended envFail stNoSub sigUnitFilesChanged).1 rfl,
    rfl,
    (c5_bookkeeping_amended envFail stWithSub sigUnitFilesChanged).2.1 rfl rfl,
    (c5_bookkeeping_amended envFail stWithSub (sigReloading true)).2.2 true rfl rfl rfl⟩

/-- C6: the candidate entity path. For JobRemoved it comes from the
synchronous GetUnit lookup keyed on the third body element: a failed
lookup leaves only the job-registry effect and delivers no state update,
while a successful lookup with a non-empty path delivers an update for
that path. For PropertiesChanged the candidate is the origin path exactly
when the first body element is the unit-properties interface name; on any
other interface nothing is delivered and the state is unchanged. -/
theorem c6_candidate_path_derivation (env : Env) (st : DState) (sig : Signal) :
    (∀ nm, sig.name = jobRemovedName → getStr? sig.body 2 = some nm →
      env.getUnit nm = none →
      dispatchStep env st sig = some { st with jobs := jobComplete sig st.jobs })
    ∧ (∀ nm p, sig.name = jobRemovedName → st.sub.updateCh.isNone = false →
        getStr? sig.body 2 = some nm → env.getUnit nm = some p → p ≠ "" →
        dispatchStep env st sig =
          some { st with jobs := jobComplete sig st.jobs,
                         sub := sendSubStateUpdate env st.sub p })
    ∧ (sig.name = propertiesChangedName → st.sub.updateCh.isNone = false →
        getStr? sig.body 0 = some unitInterfaceName → sig.path ≠ "" →
        dispatchStep env st sig = some { st with sub := sendSubStateUpdate env st.sub sig.path })
    ∧ (∀ iface, sig.name = propertiesChangedName → getStr? sig.body 0 = some iface →
        iface ≠ unitInterfaceName → dispatchStep env st sig = some st) := by
  refine ⟨?_, ?_, ?_, ?_⟩
  · intro nm hn hs hl
    cases hu : st.sub.updateCh.isNone with
    | true =>
        rw [dispatchStep_noSub env st sig hu, hn]
        simp
    | false =>
        rw [dispatchStep_jobRemoved env st sig nm hn hu hs, hl]
        simp [deliverCandidate]
  · intro nm p hn hu hs hl hp
    rw [dispatchStep_jobRemoved env st sig nm hn hu hs, hl]
    simp [deliverCandidate, hp]
  · intro hn hu hs hp
    rw [dispatchStep_propertiesChanged env st sig unitInterfaceName hn hu hs]
    simp [deliverCandidate, hp]
  · intro iface hn hs hi
    cases hu : st.sub.updateCh.isNone with
    | true =>
        rw [dispatchStep_noSub env st sig hu, hn]
        have hne : propertiesChangedName ≠ jobRemovedName := by decide
        simp [hne]
    | false =>
        rw [dispatchStep_propertiesChanged env st sig iface hn hu hs]
        simp [deliverCandidate, hi]

/-- Witness for C6 at concrete signals: a JobRemoved whose lookup fails, a
PropertiesChanged on the unit interface, and one on another interface. -/
theorem c6_candidate_path_derivation_witness :
    envFail.getUnit "a.service" = none
    ∧ dispatchStep envFail stWithSub sigJob
        = some { stWithSub with jobs := jobComplete sigJob stWithSub.jobs }
    ∧ sigPropsOk.path ≠ ""
    ∧ dispatchStep envOk1 stWithSub sigPropsOk
        = some { stWithSub with sub := sendSubStateUpdate envOk1 stWithSub.sub sigPropsOk.path }
    ∧ dispatchStep envOk1 stWithSub sigPropsOther = some stWithSub :=
  ⟨rfl,
    (c6_candidate_path_derivation envFail stWithSub sigJob).1 "a.service" rfl rfl rfl,
    by decide,
    (c6_candidate_path_derivation envOk1 stWithSub sigPropsOk).2.2.1 rfl rfl rfl (by decide),
    (c6_candidate_path_derivation envOk1 stWithSub sigPropsOther).2.2.2
      "org.freedesktop.systemd1.Service" rfl rfl (by decide)⟩

/-- C7: with a zero-capacity, never-drained update channel and an error
channel that starts empty, an arbitrarily long burst of qualifying
notifications leaves at most capacity-many errors buffered on the error
channel — in particular at most one when its capacity is one — so errors
never accumulate without bound. -/
theorem c7_backpressure_error_bound (env : Env) (sigs : List Signal) (st : DState)
    (u : Chan SubStateUpdate) (e0 : Chan SubErr)
    (hq : ∀ sig ∈ sigs, qualifying sig)
    (hok : ∀ q, ∃ pr, env.getUnitProps q = Except.ok pr)
    (hu : st.sub.updateCh = some u) (hcap : u.cap = 0)
    (he : st.sub.errCh = some e0) (hbuf : e0.buf = []) :
    ∃ st2 e2, runDispatch env sigs st = some st2 ∧
      st2.sub.updateCh = some u ∧ st2.sub.errCh = some e2 ∧
      e2.buf.length ≤ e0.cap ∧ (e0.cap ≤ 1 → e2.buf.length ≤ 1) := by
  obtain ⟨st2, e2, h1, h2, h3, h4, h5⟩ :=
    c7_aux env sigs st u e0 e0.cap hq hok hu hcap he rfl
      (by rw [hbuf]; exact Nat.zero_le _)
  exact ⟨st2, e2, h1, h2, h3, h5, fun hc => le_trans h5 hc⟩

/-- Witness for C7: a burst of three qualifying notifications against a
zero-capacity update channel and a one-slot error channel. -/
theorem c7_backpressure_error_bound_witness :
    (∀ sig ∈ [sigPropsOk, sigPropsOk, sigPropsOk], qualifying sig)
    ∧ (∀ q, ∃ pr, envOk1.getUnitProps q = Except.ok pr)
    ∧ (∃ st2 e2, runDispatch envOk1 [sigPropsOk, sigPropsOk, sigPropsOk] stZero = some st2 ∧
        st2.sub.updateCh = some ⟨0, []⟩ ∧ st2.sub.errCh = some e2 ∧
        e2.buf.length ≤ 1 ∧ (1 ≤ 1 → e2.buf.length ≤ 1)) := by
  have hq : ∀ sig ∈ [sigPropsOk, sigPropsOk, sigPropsOk], qualifying sig := by
    intro s hs
    simp only [List.mem_cons, List.not_mem_nil, or_false] at hs
    rcases hs with rfl | rfl | rfl <;> exact ⟨rfl, rfl, by decide⟩
  have hok : ∀ q, ∃ pr, envOk1.getUnitProps q = Except.ok pr :=
    fun q => ⟨⟨"a.service", "running"⟩, rfl⟩
  exact ⟨hq, hok,
    c7_backpressure_error_bound envOk1 [sigPropsOk, sigPropsOk, sigPropsOk] stZero
      ⟨0, []⟩ ⟨1, []⟩ hq hok rfl rfl rfl rfl⟩

/-- C8: when the bounded notification queue closes (the signal stream
ends), the dispatch loop returns with the state exactly as it was: no
error is raised and nothing is sent on any subscriber channel as part of
shutdown. -/
theorem c8_closed_queue_silent_exit (env : Env) (st : DState) :
    runDispatch env [] st = some st
    ∧ (runDispatch env [] st).map (fun s => s.sub) = some st.sub :=
  ⟨rfl, rfl⟩

/-- C9: in every interleaving of a delivery (sendSubStateUpdate) with an
installation of a new subscriber configuration (SetSubStateSubscriber),
both protected by the subscriber mutex, a completed delivery used the same
configuration for its update-channel and error-channel sends — never a
mixed old/new pair — and if the delivery entered its critical section
before the configurer started, it completed entirely against the old
channel set. -/
theorem c9_delivery_snapshot_consistency (sched : List Tid) :
    (3 ≤ (lockRun sched lockInit).dpc →
      (lockRun sched lockInit).rU = (lockRun sched lockInit).rE)
    ∧ (∀ i, 1 ≤ (lockRun (sched.take i) lockInit).dpc →
        (lockRun (sched.take i) lockInit).cpc = 0 →
        3 ≤ (lockRun sched lockInit).dpc →
        (lockRun sched lockInit).rU = false ∧ (lockRun sched lockInit).rE = false) := by
  constructor
  · intro h3
    exact (LInv_lockRun sched lockInit LInv_lockInit).2.2.2.2.2.2.2.1 h3
  · intro i hd hc h3
    have hsplit : lockRun sched lockInit =
        lockRun (sched.drop i) (lockRun (sched.take i) lockInit) := by
      rw [← lockRun_append, List.take_append_drop]
    have hmid : QInv (lockRun (sched.take i) lockInit) :=
      ⟨LInv_lockRun _ _ LInv_lockInit, hd, Or.inl hc⟩
    have hq : QInv (lockRun sched lockInit) := by
      rw [hsplit]
      exact QInv_lockRun _ _ hmid
    rcases hq.2.2 with hc0 | hr
    · exact hq.1.2.2.2.2.2.2.2.2 h3 (by omega)
    · exact ⟨hr.2.1, hr.2.2⟩

/-- Witness for C9 on a concrete schedule in which the configurer attempts
to install while the delivery holds the lock. -/
theorem c9_delivery_snapshot_consistency_witness :
    (1 ≤ (lockRun ([Tid.deliverer, Tid.configurer, Tid.deliverer, Tid.deliverer,
        Tid.deliverer, Tid.configurer, Tid.configurer, Tid.configurer,
        Tid.configurer, Tid.configurer].take 1) lockInit).dpc
      ∧ (lockRun ([Tid.deliverer, Tid.configurer, Tid.deliverer, Tid.deliverer,
          Tid.deliverer, Tid.configurer, Tid.configurer, Tid.configurer,
          Tid.configurer, Tid.configurer].take 1) lockInit).cpc = 0)
    ∧ 3 ≤ (lockRun [Tid.deliverer, Tid.configurer, Tid.deliverer, Tid.deliverer,
        Tid.deliverer, Tid.configurer, Tid.configurer, Tid.configurer,
        Tid.configurer, Tid.configurer] lockInit).dpc
    ∧ (lockRun [Tid.deliverer, Tid.configurer, Tid.deliverer, Tid.deliverer,
        Tid.deliverer, Tid.configurer, Tid.configurer, Tid.configurer,
        Tid.configurer, Tid.configurer] lockInit).rU = false
    ∧ (lockRun [Tid.deliverer, Tid.configurer, Tid.deliverer, Tid.deliverer,
        Tid.deliverer, Tid.configurer, Tid.configurer, Tid.configurer,
        Tid.configurer, Tid.configurer] lockInit).rE = false := by
  refine ⟨⟨by decide, by decide⟩, by decide, ?_⟩
  exact (c9_delivery_snapshot_consistency _).2 1 (by decide) (by decide) (by decide)

/-- C10: RemoveSubStateSubscriber clears only the update and error channel
fields; the reload channel field keeps its previous value. -/
theorem c10_remove_subscriber_keeps_reload (sub : Subscriber) :
    (removeSubStateSubscriber sub).reloadCh = sub.reloadCh
    ∧ (removeSubStateSubscriber sub).updateCh = none
    ∧ (removeSubStateSubscriber sub).errCh = none :=
  ⟨rfl, rfl, rfl⟩


end Dbusext
